import Mathlib

/-!
Verification of the FXN Solana adapter (`src/client/fxn-solana-adapter.ts`)
against its natural-language specification.

The TypeScript adapter is shallowly embedded: public keys and the
program id are opaque identifiers (`Nat`); program-derived addresses
(PDAs) are records of their seed list and program id, since the
external derivation primitive is a deterministic function of exactly
those inputs; `BN` timestamps are `Int`; JavaScript exceptions are a
record with an optional numeric `code`, a `message`, and an `isError`
flag; RPC effects (account fetches, transaction submissions) are
passed in explicitly as `Except` oracle values, and each orchestrator
method additionally returns the list of on-chain transitions it
submitted, in order.
-/

namespace Fxn

abbrev PublicKey := Nat
abbrev ProgramId := Nat

/-- One element of a PDA seed list: either a static namespace tag
(`Buffer.from("...")` in the source) or a public key buffer. -/
inductive Seed where
  | tag (s : String)
  | key (k : PublicKey)
deriving DecidableEq

/-- A program-derived address, modelled as the inputs of the external
derivation primitive (which is deterministic and collision-resistant in
them). -/
structure PDA where
  seeds : List Seed
  programId : ProgramId
deriving DecidableEq

/-- `PublicKey.findProgramAddressSync` of `@solana/web3.js`. -/
def findProgramAddressSync (seeds : List Seed) (programId : ProgramId) : PDA :=
  { seeds := seeds, programId := programId }

structure ProgramAddresses where
  statePDA : PDA
  qualityPDA : PDA
  subscriptionPDA : PDA
  subscribersListPDA : PDA
deriving DecidableEq

/-- `getProgramAddresses` (source lines 420-456): derives the four PDAs
from the fixed program id, the static tags and the
(dataProvider, subscriber) pair. -/
def getProgramAddresses (programId : ProgramId)
    (dataProvider subscriber : PublicKey) : ProgramAddresses :=
  { statePDA := findProgramAddressSync [Seed.tag "storage"] programId
    qualityPDA :=
      findProgramAddressSync [Seed.tag "quality", Seed.key dataProvider] programId
    subscriptionPDA :=
      findProgramAddressSync
        [Seed.tag "subscription", Seed.key subscriber, Seed.key dataProvider]
        programId
    subscribersListPDA :=
      findProgramAddressSync [Seed.tag "subscribers", Seed.key dataProvider] programId }

/-- The three lifecycle statuses returned by `getSubscriptionStatus`. -/
inductive Status where
  | active
  | expired
  | expiring_soon
deriving DecidableEq

/-- `getSubscriptionStatus` (source lines 130-141) with the clock made
explicit: the source reads `now = Math.floor(Date.now() / 1000)` and
computes `daysUntilExpiration = (endTime - now) / 86400` as a (rational)
division before the comparisons. -/
def getSubscriptionStatus (endTime now : Int) : Status :=
  let daysUntilExpiration : ℚ := ((endTime : ℚ) - (now : ℚ)) / (24 * 60 * 60)
  if endTime ≤ now then Status.expired
  else if daysUntilExpiration ≤ 7 then Status.expiring_soon
  else Status.active

/-- A JavaScript exception value as the adapter observes it: an optional
numeric program-error `code`, a `message`, and whether the value is an
`Error` instance (`String(e)` agrees with `message` in this model). -/
structure JsError where
  code : Option Int
  message : String
  isError : Bool
deriving DecidableEq

/-- The numeric codes of `enum SubscriptionErrorCode` (source lines 45-55). -/
def SubscriptionErrorCode.PeriodTooShort : Int := 6000
def SubscriptionErrorCode.AlreadySubscribed : Int := 6001
def SubscriptionErrorCode.InsufficientPayment : Int := 6002
def SubscriptionErrorCode.InvalidNFTHolder : Int := 6003
def SubscriptionErrorCode.SubscriptionNotFound : Int := 6004
def SubscriptionErrorCode.QualityOutOfRange : Int := 6005
def SubscriptionErrorCode.SubscriptionAlreadyEnded : Int := 6006
def SubscriptionErrorCode.ActiveSubscription : Int := 6007
def SubscriptionErrorCode.NotOwner : Int := 6008

/-- `handleError` (source lines 458-487): a coded error is switched over
the nine known codes, any other code falls to the default branch, and an
uncoded value is returned as-is when it is an `Error` and wrapped in
`new Error(String(error))` otherwise. -/
def handleError (error : JsError) : JsError :=
  match error.code with
  | some c =>
    if c = SubscriptionErrorCode.PeriodTooShort then
      { code := none, message := "Subscription period is too short", isError := true }
    else if c = SubscriptionErrorCode.AlreadySubscribed then
      { code := none, message := "Already subscribed", isError := true }
    else if c = SubscriptionErrorCode.InsufficientPayment then
      { code := none, message := "Insufficient payment", isError := true }
    else if c = SubscriptionErrorCode.InvalidNFTHolder then
      { code := none, message := "Invalid NFT holder", isError := true }
    else if c = SubscriptionErrorCode.SubscriptionNotFound then
      { code := none, message := "Subscription not found", isError := true }
    else if c = SubscriptionErrorCode.QualityOutOfRange then
      { code := none, message := "Quality score must be between 0 and 100", isError := true }
    else if c = SubscriptionErrorCode.SubscriptionAlreadyEnded then
      { code := none, message := "Subscription has already ended", isError := true }
    else if c = SubscriptionErrorCode.ActiveSubscription then
      { code := none, message := "Subscription is still active", isError := true }
    else if c = SubscriptionErrorCode.NotOwner then
      { code := none, message := "Not the contract owner", isError := true }
    else
      { code := none, message := "Unknown error: " ++ error.message, isError := true }
  | none =>
    if error.isError then error
    else { code := none, message := error.message, isError := true }

/-- The named message `handleError` produces for each of the nine known
codes, `none` for every other code. -/
def knownCodeMessage (c : Int) : Option String :=
  if c = 6000 then some "Subscription period is too short"
  else if c = 6001 then some "Already subscribed"
  else if c = 6002 then some "Insufficient payment"
  else if c = 6003 then some "Invalid NFT holder"
  else if c = 6004 then some "Subscription not found"
  else if c = 6005 then some "Quality score must be between 0 and 100"
  else if c = 6006 then some "Subscription has already ended"
  else if c = 6007 then some "Subscription is still active"
  else if c = 6008 then some "Not the contract owner"
  else none

/-- `state` account: only the `owner` field is read by the adapter. -/
structure StateAccount where
  owner : PublicKey
deriving DecidableEq

/-- `subscription` account: the fields the adapter reads. -/
structure SubscriptionAccount where
  endTime : Int
  recipient : String
deriving DecidableEq

/-- `qualityInfo` account: fetched by `renewSubscription` only for
existence; its payload is never read, so it is opaque here. -/
structure QualityInfoAccount where
  payload : Nat
deriving DecidableEq

/-- `subscribersList` account. -/
structure SubscribersListAccount where
  subscribers : List PublicKey
deriving DecidableEq

/-- An on-chain transition submitted through `program.methods.<name>...rpc()`,
with its account bindings and arguments as the source binds them.
`initQualityInfo` models the `initializeQualityInfo` transition. -/
inductive Transition where
  | initQualityInfo (qualityInfo : PDA) (dataProvider payer : PublicKey)
  | renewTx (state subscriptionPDA qualityInfo : PDA)
      (subscriber dataProvider owner : PublicKey)
      (newRecipient : String) (newEndTime : Int) (qualityScore : Int)
      (nftTokenAccount : PublicKey)
  | subscribeTx (state subscriptionPDA subscribersList : PDA)
      (subscriber dataProvider owner nftTokenAccount : PublicKey)
      (recipient : String) (endTime : Int)
deriving DecidableEq

/-- Whether a transition is the `initializeQualityInfo` transition. -/
def Transition.isInit : Transition → Bool
  | .initQualityInfo .. => true
  | _ => false

/-- Whether a transition is the `renewSubscription` transition. -/
def Transition.isRenew : Transition → Bool
  | .renewTx .. => true
  | _ => false

/-- The PDAs bound as accounts of a transition (non-PDA bindings such as
subscriber, dataProvider, owner, nftTokenAccount, and the system/token
programs are listed separately in the constructors). -/
def Transition.boundPDAs : Transition → List PDA
  | .initQualityInfo q _ _ => [q]
  | .renewTx st sub q _ _ _ _ _ _ _ => [st, sub, q]
  | .subscribeTx st sub sl _ _ _ _ _ _ => [st, sub, sl]

/-- The RPC outcomes `renewSubscription` can observe, passed in as oracles:
the `qualityInfo` fetch, the `initializeQualityInfo` submission, the
`state` fetch, and the `renewSubscription` submission. -/
structure RenewWorld where
  qualityFetch : Except JsError QualityInfoAccount
  initQualityRpc : Except JsError String
  stateFetch : Except JsError StateAccount
  renewRpc : Except JsError String

/-- `RenewParams` (source lines 20-26). -/
structure RenewParams where
  dataProvider : PublicKey
  newRecipient : String
  newEndTime : Int
  qualityScore : Int
  nftTokenAccount : PublicKey
deriving DecidableEq

/-- `renewSubscription` (source lines 270-322), returning the result and
the ordered list of transitions it submitted. The source derives the
PDAs, tries to fetch the quality account and on any fetch failure
submits `initializeQualityInfo` inside the catch block; an exception
from that submission, like any later exception, escapes to the outer
catch, which rethrows `handleError(error)`. Otherwise it fetches the
state owner and submits the renew transition. -/
def renewSubscription (programId : ProgramId) (subscriber : PublicKey)
    (w : RenewWorld) (params : RenewParams) :
    Except JsError String × List Transition :=
  let pdas := getProgramAddresses programId params.dataProvider subscriber
  let step1 : Except JsError Unit × List Transition :=
    match w.qualityFetch with
    | .ok _ => (.ok (), [])
    | .error _ =>
      let t := Transition.initQualityInfo pdas.qualityPDA params.dataProvider subscriber
      match w.initQualityRpc with
      | .ok _ => (.ok (), [t])
      | .error e => (.error e, [t])
  match step1 with
  | (.error e, tr) => (.error (handleError e), tr)
  | (.ok _, tr) =>
    match w.stateFetch with
    | .error e => (.error (handleError e), tr)
    | .ok state =>
      let t := Transition.renewTx pdas.statePDA pdas.subscriptionPDA pdas.qualityPDA
        subscriber params.dataProvider state.owner
        params.newRecipient params.newEndTime params.qualityScore
        params.nftTokenAccount
      match w.renewRpc with
      | .ok sig => (.ok sig, tr ++ [t])
      | .error e => (.error (handleError e), tr ++ [t])

/-- The RPC outcomes `createSubscription` can observe. -/
structure CreateWorld where
  stateFetch : Except JsError StateAccount
  subscribeRpc : Except JsError String

/-- `CreateSubscriptionParams` (source lines 57-62). -/
structure CreateSubscriptionParams where
  dataProvider : PublicKey
  recipient : String
  durationInDays : Int
  nftTokenAccount : PublicKey
deriving DecidableEq

/-- `createSubscription` (source lines 86-128): derives the PDAs, fetches
the `state` account for its owner, and submits one `subscribe`
transition with end time `now + durationInDays * 24 * 60 * 60`, bound to
the state, subscription and subscribersList PDAs plus subscriber,
dataProvider, the fetched owner and the NFT token account. Failures are
rethrown through `handleError`. -/
def createSubscription (programId : ProgramId) (subscriber : PublicKey)
    (now : Int) (w : CreateWorld) (params : CreateSubscriptionParams) :
    Except JsError String × List Transition :=
  let pdas := getProgramAddresses programId params.dataProvider subscriber
  match w.stateFetch with
  | .error e => (.error (handleError e), [])
  | .ok state =>
    let t := Transition.subscribeTx pdas.statePDA pdas.subscriptionPDA
      pdas.subscribersListPDA subscriber params.dataProvider state.owner
      params.nftTokenAccount params.recipient
      (now + params.durationInDays * (24 * 60 * 60))
    match w.subscribeRpc with
    | .ok sig => (.ok sig, [t])
    | .error e => (.error (handleError e), [t])

/-- `getAgentSubscribers` (source lines 166-195): derives the
subscribers-list PDA and fetches it; the inner catch turns any fetch
failure into an empty array, so the method returns normally in both
cases (the outer catch is unreachable in this model because nothing
after the inner try can throw). -/
def getAgentSubscribers (programId : ProgramId) (agentAddress : PublicKey)
    (fetchList : PDA → Except JsError SubscribersListAccount) :
    Except JsError (List PublicKey) :=
  let subscribersListPDA :=
    findProgramAddressSync [Seed.tag "subscribers", Seed.key agentAddress] programId
  match fetchList subscribersListPDA with
  | .ok l => .ok l.subscribers
  | .error _ => .ok []

/-- The per-subscriber subscription PDA used inside
`getActiveSubscriptionsForAgent` (source lines 207-214). -/
def subscriptionPDAFor (programId : ProgramId)
    (subscriber agentAddress : PublicKey) : PDA :=
  findProgramAddressSync
    [Seed.tag "subscription", Seed.key subscriber, Seed.key agentAddress] programId

/-- `getActiveSubscriptionsForAgent` (source lines 198-236): lists the
subscribers, then for each derives the per-pair subscription PDA and
fetches it, incrementing the count when `endTime > now`; a fetch failure
hits the inner catch and the loop continues with the next subscriber. -/
def getActiveSubscriptionsForAgent (programId : ProgramId)
    (agentAddress : PublicKey)
    (fetchList : PDA → Except JsError SubscribersListAccount)
    (fetchSub : PDA → Except JsError SubscriptionAccount)
    (now : Int) : Except JsError Nat :=
  match getAgentSubscribers programId agentAddress fetchList with
  | .error e => .error (handleError e)
  | .ok subscribers =>
    .ok (subscribers.foldl
      (fun activeCount subscriber =>
        match fetchSub (subscriptionPDAFor programId subscriber agentAddress) with
        | .ok s => if now < s.endTime then activeCount + 1 else activeCount
        | .error _ => activeCount)
      0)

/-- One element of the list returned by `getAllSubscriptionsForUser`. -/
structure SubscriptionStatusRec where
  subscription : SubscriptionAccount
  subscriptionPDA : PDA
  status : Status
deriving DecidableEq

set_option linter.unusedVariables false in
/-- `getAllSubscriptionsForUser` (source lines 239-268) with the account
listing and the clock explicit: it lists every `subscription` account,
keeps those with `endTime > now`, and maps each to its account, PDA and
computed status. The `userPublicKey` parameter is never read. -/
def getAllSubscriptionsForUser (userPublicKey : PublicKey)
    (subscriptionAccounts : List (PDA × SubscriptionAccount)) (now : Int) :
    List SubscriptionStatusRec :=
  (subscriptionAccounts.filter (fun account => now < account.2.endTime)).map
    (fun account =>
      { subscription := account.2
        subscriptionPDA := account.1
        status := getSubscriptionStatus account.2.endTime now })

/-! ## Helper lemmas -/

/-- The rational `daysUntilExpiration ≤ 7` comparison of
`getSubscriptionStatus` coincides with the integer bound of 604800
seconds (7 days). -/
lemma days_le_seven_iff (e n : Int) :
    ((e : ℚ) - (n : ℚ)) / (24 * 60 * 60) ≤ 7 ↔ e - n ≤ 604800 := by
  rw [div_le_iff₀ (by norm_num : (0 : ℚ) < 24 * 60 * 60)]
  have h : (7 : ℚ) * (24 * 60 * 60) = ((604800 : ℤ) : ℚ) := by norm_num
  rw [h, ← Int.cast_sub]
  exact Int.cast_le

/-- Integer characterization of the status classifier. -/
lemma getSubscriptionStatus_eq (e n : Int) :
    getSubscriptionStatus e n =
      if e ≤ n then Status.expired
      else if e - n ≤ 604800 then Status.expiring_soon
      else Status.active := by
  unfold getSubscriptionStatus
  simp only [days_le_seven_iff]

/-! ## Claims -/

/-- C2: the status classifier returns `expired` iff `endTime ≤ now`,
`expiring_soon` iff `0 < endTime - now ≤ 604800`, and `active` iff
`endTime - now > 604800`; in particular the 7-day boundary itself is
`expiring_soon` and one second past it is `active`. -/
theorem getSubscriptionStatus_spec (endTime now : Int) :
    (getSubscriptionStatus endTime now = Status.expired ↔ endTime ≤ now) ∧
    (getSubscriptionStatus endTime now = Status.expiring_soon ↔
      0 < endTime - now ∧ endTime - now ≤ 604800) ∧
    (getSubscriptionStatus endTime now = Status.active ↔ 604800 < endTime - now) ∧
    getSubscriptionStatus (now + 604800) now = Status.expiring_soon ∧
    getSubscriptionStatus (now + 604801) now = Status.active := by
  simp only [getSubscriptionStatus_eq]
  refine ⟨?_, ?_, ?_, ?_, ?_⟩ <;> split_ifs <;> simp_all <;> omega

set_option maxHeartbeats 1000000 in
/-- On a coded error, `handleError` returns the known named message for
the code, or the catch-all message for any code outside the known set. -/
lemma handleError_coded (c : Int) (msg : String) (isErr : Bool) :
    handleError { code := some c, message := msg, isError := isErr } =
      { code := none,
        message := (knownCodeMessage c).getD ("Unknown error: " ++ msg),
        isError := true } := by
  simp only [handleError, knownCodeMessage, SubscriptionErrorCode.PeriodTooShort,
    SubscriptionErrorCode.AlreadySubscribed, SubscriptionErrorCode.InsufficientPayment,
    SubscriptionErrorCode.InvalidNFTHolder, SubscriptionErrorCode.SubscriptionNotFound,
    SubscriptionErrorCode.QualityOutOfRange, SubscriptionErrorCode.SubscriptionAlreadyEnded,
    SubscriptionErrorCode.ActiveSubscription, SubscriptionErrorCode.NotOwner]
  split_ifs <;> rfl

/-- C3: the error translator is a total function; on each of the nine
known codes it produces the corresponding named error, on any other code
it produces the catch-all message built around the original message, and
on a code-less error it preserves the original message. -/
theorem handleError_spec (e : JsError) :
    (∀ c, e.code = some c → ∀ m, knownCodeMessage c = some m →
      handleError e = { code := none, message := m, isError := true }) ∧
    (∀ c, e.code = some c → knownCodeMessage c = none →
      (handleError e).message = "Unknown error: " ++ e.message) ∧
    (e.code = none → (handleError e).message = e.message) := by
  obtain ⟨c?, msg, isErr⟩ := e
  refine ⟨?_, ?_, ?_⟩
  · intro c hc m hm
    cases c? with
    | none => exact absurd hc (by simp)
    | some c0 =>
      simp only [Option.some.injEq] at hc
      subst hc
      rw [handleError_coded, hm, Option.getD_some]
  · intro c hc hm
    cases c? with
    | none => exact absurd hc (by simp)
    | some c0 =>
      simp only [Option.some.injEq] at hc
      subst hc
      rw [handleError_coded, hm, Option.getD_none]
  · intro hc
    cases c? with
    | some c0 => exact absurd hc (by simp)
    | none =>
      unfold handleError
      cases isErr <;> simp

/-- Witness for C3: the known code 6001 translates to the named
"Already subscribed" error. -/
theorem handleError_spec_witness :
    handleError { code := some 6001, message := "boom", isError := true } =
      { code := none, message := "Already subscribed", isError := true } :=
  (handleError_spec { code := some 6001, message := "boom", isError := true }).1
    6001 rfl "Already subscribed" (by decide)

/-- C7: address derivation is deterministic, the state PDA depends only
on the program id and the tag "storage" (hence is identical across all
provider/subscriber pairs), the subscription PDA is derived from its tag
plus subscriber plus provider, and the quality and subscribers-list PDAs
from their tags plus the provider only. -/
theorem getProgramAddresses_deterministic (programId : ProgramId)
    (dataProvider subscriber dataProvider2 subscriber2 : PublicKey) :
    getProgramAddresses programId dataProvider subscriber =
      getProgramAddresses programId dataProvider subscriber ∧
    (getProgramAddresses programId dataProvider subscriber).statePDA =
      (getProgramAddresses programId dataProvider2 subscriber2).statePDA ∧
    (getProgramAddresses programId dataProvider subscriber).statePDA =
      findProgramAddressSync [Seed.tag "storage"] programId ∧
    (getProgramAddresses programId dataProvider subscriber).subscriptionPDA =
      findProgramAddressSync
        [Seed.tag "subscription", Seed.key subscriber, Seed.key dataProvider] programId ∧
    (getProgramAddresses programId dataProvider subscriber).qualityPDA =
      findProgramAddressSync [Seed.tag "quality", Seed.key dataProvider] programId ∧
    (getProgramAddresses programId dataProvider subscriber).subscribersListPDA =
      findProgramAddressSync [Seed.tag "subscribers", Seed.key dataProvider] programId :=
  ⟨rfl, rfl, rfl, rfl, rfl, rfl⟩

/-- C9: `getAllSubscriptionsForUser` never reads its `userPublicKey`
argument, so its result is identical for any two user keys given the
same listed accounts and clock. -/
theorem getAllSubscriptionsForUser_ignores_user (u1 u2 : PublicKey)
    (subscriptionAccounts : List (PDA × SubscriptionAccount)) (now : Int) :
    getAllSubscriptionsForUser u1 subscriptionAccounts now =
      getAllSubscriptionsForUser u2 subscriptionAccounts now := rfl

/-! ## renewSubscription: claims C1 and C4 -/

/-- A fetch failure for an absent quality account, as the RPC layer
reports it. -/
def qualityAbsentErr : JsError :=
  { code := none, message := "Account does not exist", isError := true }

/-- The "already exists" failure of the `initializeQualityInfo`
submission (the allocator rejects re-creating the account). -/
def alreadyExistsErr : JsError :=
  { code := none, message := "Allocate: account already in use", isError := true }

def c1World : RenewWorld :=
  { qualityFetch := .error qualityAbsentErr
    initQualityRpc := .error alreadyExistsErr
    stateFetch := .ok { owner := 9 }
    renewRpc := .ok "sig" }

def c1Params : RenewParams :=
  { dataProvider := 2, newRecipient := "recipient", newEndTime := 1000,
    qualityScore := 50, nftTokenAccount := 7 }

/-- C1 counterexample: with the quality record absent and the
initialize-quality submission failing with the "already exists" error,
`renewSubscription` propagates exactly that error to the caller and
never submits the renew transition, contradicting the claim that the
error is treated as success. -/
theorem renew_already_exists_cex :
    (renewSubscription 1 3 c1World c1Params).1 = .error alreadyExistsErr ∧
    (renewSubscription 1 3 c1World c1Params).2.countP Transition.isRenew = 0 :=
  ⟨rfl, rfl⟩

/-- C1 as amended: when the quality fetch fails and the submitted
initialize-quality transition then fails — with the "already exists"
error or any other — the error is not swallowed: `renewSubscription`
fails with that error passed through the error translator, and the
renew transition is never attempted. -/
theorem renew_init_error_propagates (programId : ProgramId) (subscriber : PublicKey)
    (w : RenewWorld) (params : RenewParams) (e0 e : JsError)
    (hq : w.qualityFetch = .error e0) (hi : w.initQualityRpc = .error e) :
    (renewSubscription programId subscriber w params).1 = .error (handleError e) ∧
    (renewSubscription programId subscriber w params).2.countP Transition.isRenew = 0 := by
  obtain ⟨qf, iq, sf, rr⟩ := w
  cases hq
  cases hi
  exact ⟨rfl, rfl⟩

/-- Witness for the amended C1 at the concrete already-exists scenario. -/
theorem renew_init_error_propagates_witness :
    (renewSubscription 1 3 c1World c1Params).1 = .error (handleError alreadyExistsErr) ∧
    (renewSubscription 1 3 c1World c1Params).2.countP Transition.isRenew = 0 :=
  renew_init_error_propagates 1 3 c1World c1Params qualityAbsentErr alreadyExistsErr rfl rfl

/-- C4: the two-step renew protocol. A failed quality fetch leads to
exactly one initialize transition; a successful fetch to none; a failed
initialize submission means the renew transition is never submitted; and
in every trace each initialize transition precedes every renew
transition. -/
theorem renewSubscription_two_step (programId : ProgramId) (subscriber : PublicKey)
    (w : RenewWorld) (params : RenewParams) :
    (∀ e, w.qualityFetch = .error e →
      (renewSubscription programId subscriber w params).2.countP Transition.isInit = 1) ∧
    (∀ q, w.qualityFetch = .ok q →
      (renewSubscription programId subscriber w params).2.countP Transition.isInit = 0) ∧
    (∀ e0 e, w.qualityFetch = .error e0 → w.initQualityRpc = .error e →
      (renewSubscription programId subscriber w params).2.countP Transition.isRenew = 0) ∧
    ((renewSubscription programId subscriber w params).2.dropWhile
      (fun t => !t.isRenew)).countP Transition.isInit = 0 := by
  obtain ⟨qf, iq, sf, rr⟩ := w
  refine ⟨?_, ?_, ?_, ?_⟩
  · intro e he
    cases qf with
    | ok q => exact absurd he (by simp)
    | error e0 =>
      cases iq <;> cases sf <;> cases rr <;>
        simp [renewSubscription, Transition.isInit, List.countP_cons, List.countP_nil,
          List.countP_append]
  · intro q hq
    cases qf with
    | error e0 => exact absurd hq (by simp)
    | ok q0 =>
      cases sf <;> cases rr <;>
        simp [renewSubscription, Transition.isInit, List.countP_cons, List.countP_nil,
          List.countP_append]
  · intro e0 e hq hi
    cases qf with
    | ok q => exact absurd hq (by simp)
    | error e1 =>
      cases iq with
      | ok s => exact absurd hi (by simp)
      | error e2 => rfl
  · cases qf <;> cases iq <;> cases sf <;> cases rr <;>
      simp [renewSubscription, Transition.isInit, Transition.isRenew, List.dropWhile,
        List.countP_cons, List.countP_nil, List.countP_append]

def c4World : RenewWorld :=
  { qualityFetch := .error qualityAbsentErr
    initQualityRpc := .ok "sigInit"
    stateFetch := .ok { owner := 9 }
    renewRpc := .ok "sigRenew" }

/-- Witness for C4: with the quality record absent and every submission
succeeding, the trace holds exactly one initialize transition. -/
theorem renewSubscription_two_step_witness :
    (renewSubscription 1 3 c4World c1Params).2.countP Transition.isInit = 1 :=
  (renewSubscription_two_step 1 3 c4World c1Params).1 qualityAbsentErr rfl

/-! ## Subscriber queries: claims C5 and C6 -/

/-- C6: `getAgentSubscribers` turns a failed subscribers-list fetch into
a normally returned empty list, and returns the account's member list
when the fetch succeeds. -/
theorem getAgentSubscribers_spec (programId : ProgramId) (agentAddress : PublicKey)
    (fetchList : PDA → Except JsError SubscribersListAccount) :
    (∀ e, fetchList (findProgramAddressSync
        [Seed.tag "subscribers", Seed.key agentAddress] programId) = .error e →
      getAgentSubscribers programId agentAddress fetchList = .ok []) ∧
    (∀ l, fetchList (findProgramAddressSync
        [Seed.tag "subscribers", Seed.key agentAddress] programId) = .ok l →
      getAgentSubscribers programId agentAddress fetchList = .ok l.subscribers) := by
  constructor <;> intro x hx <;> simp [getAgentSubscribers, hx]

/-- Witness for C6: a provider with no subscribers-list account yields
the empty list. -/
theorem getAgentSubscribers_spec_witness :
    getAgentSubscribers 7 5 (fun _ => .error qualityAbsentErr) = .ok [] :=
  (getAgentSubscribers_spec 7 5 (fun _ => .error qualityAbsentErr)).1 qualityAbsentErr rfl

/-- The per-subscriber test applied inside the counting loop of
`getActiveSubscriptionsForAgent`: the subscription fetch succeeds and
its `endTime` is strictly after `now`. -/
def activePred (programId : ProgramId) (agentAddress : PublicKey)
    (fetchSub : PDA → Except JsError SubscriptionAccount) (now : Int)
    (subscriber : PublicKey) : Bool :=
  match fetchSub (subscriptionPDAFor programId subscriber agentAddress) with
  | .ok s => now < s.endTime
  | .error _ => false

/-- Counting via a conditional fold equals `countP`. -/
lemma foldl_count (f : PublicKey → Bool) (l : List PublicKey) (acc : Nat) :
    l.foldl (fun a s => if f s then a + 1 else a) acc = acc + l.countP f := by
  induction l generalizing acc with
  | nil => simp
  | cons x xs ih =>
    by_cases hx : f x <;> simp [List.countP_cons, hx, ih]
    omega

/-- The loop body of `getActiveSubscriptionsForAgent` is the conditional
increment on `activePred`. -/
lemma activeLoopBody_eq (programId : ProgramId) (agentAddress : PublicKey)
    (fetchSub : PDA → Except JsError SubscriptionAccount) (now : Int) :
    (fun (activeCount : Nat) (subscriber : PublicKey) =>
      match fetchSub (subscriptionPDAFor programId subscriber agentAddress) with
      | .ok s => if now < s.endTime then activeCount + 1 else activeCount
      | .error _ => activeCount) =
    (fun (activeCount : Nat) (subscriber : PublicKey) =>
      if activePred programId agentAddress fetchSub now subscriber
      then activeCount + 1 else activeCount) := by
  funext a s
  unfold activePred
  cases fetchSub (subscriptionPDAFor programId s agentAddress) with
  | ok v => by_cases h : now < v.endTime <;> simp [h]
  | error e => simp

/-- C5: `getActiveSubscriptionsForAgent` returns exactly the number of
listed subscribers whose subscription fetch succeeds with
`endTime > now`; subscribers whose fetch fails are skipped and the
operation still succeeds. -/
theorem getActiveSubscriptionsForAgent_count (programId : ProgramId)
    (agentAddress : PublicKey)
    (fetchList : PDA → Except JsError SubscribersListAccount)
    (fetchSub : PDA → Except JsError SubscriptionAccount) (now : Int)
    (subscribers : List PublicKey)
    (hsubs : getAgentSubscribers programId agentAddress fetchList = .ok subscribers) :
    getActiveSubscriptionsForAgent programId agentAddress fetchList fetchSub now =
      .ok (subscribers.countP (activePred programId agentAddress fetchSub now)) := by
  unfold getActiveSubscriptionsForAgent
  rw [hsubs]
  simp [activeLoopBody_eq, foldl_count]

def c5FetchList : PDA → Except JsError SubscribersListAccount :=
  fun _ => .ok { subscribers := [1, 2, 3] }

def c5FetchSub : PDA → Except JsError SubscriptionAccount :=
  fun pda =>
    if pda = subscriptionPDAFor 7 2 5 then .error qualityAbsentErr
    else .ok { endTime := 100, recipient := "recipient" }

/-- Witness for C5: three listed subscribers with the middle fetch
failing count as two, with no error. -/
theorem getActiveSubscriptionsForAgent_count_witness :
    getActiveSubscriptionsForAgent 7 5 c5FetchList c5FetchSub 0 = .ok 2 :=
  (getActiveSubscriptionsForAgent_count 7 5 c5FetchList c5FetchSub 0 [1, 2, 3] rfl).trans
    (by rfl)

/-! ## createSubscription: claim C8 -/

def c8World : CreateWorld :=
  { stateFetch := .ok { owner := 9 }, subscribeRpc := .ok "sig" }

def c8Params : CreateSubscriptionParams :=
  { dataProvider := 2, recipient := "recipient", durationInDays := 30,
    nftTokenAccount := 7 }

/-- C8 counterexample: the single subscribe transition issued by
`createSubscription` does not bind the derived quality PDA, so it is
bound to only three of the four derived addresses, contradicting the
claim that all four are bound. -/
theorem createSubscription_quality_unbound_cex :
    (createSubscription 1 3 0 c8World c8Params).2.length = 1 ∧
    ((createSubscription 1 3 0 c8World c8Params).2.all
      (fun t => !(t.boundPDAs.contains (getProgramAddresses 1 2 3).qualityPDA))) = true := by
  exact ⟨rfl, by decide⟩

/-- C8 as amended: `createSubscription` fetches the state account for
its owner and submits a single subscribe transition whose end time is
`now + durationInDays * 86400`, bound to the derived state, subscription
and subscribers-list addresses (three of the four derived addresses; the
quality address is not bound) plus the fetched owner and the eligibility
proof; on success it returns the transaction identifier. -/
theorem createSubscription_spec (programId : ProgramId) (subscriber : PublicKey)
    (now : Int) (w : CreateWorld) (params : CreateSubscriptionParams)
    (state : StateAccount) (hs : w.stateFetch = .ok state) :
    (createSubscription programId subscriber now w params).2 =
      [Transition.subscribeTx
        (getProgramAddresses programId params.dataProvider subscriber).statePDA
        (getProgramAddresses programId params.dataProvider subscriber).subscriptionPDA
        (getProgramAddresses programId params.dataProvider subscriber).subscribersListPDA
        subscriber params.dataProvider state.owner params.nftTokenAccount
        params.recipient (now + params.durationInDays * 86400)] ∧
    (∀ sig, w.subscribeRpc = .ok sig →
      (createSubscription programId subscriber now w params).1 = .ok sig) := by
  obtain ⟨sf, sr⟩ := w
  cases hs
  constructor
  · cases sr <;> simp [createSubscription]
  · intro sig hsig
    cases sr with
    | error e => exact absurd hsig (by simp)
    | ok s0 =>
      simp only [Except.ok.injEq] at hsig
      subst hsig
      rfl

/-- Witness for the amended C8 at a concrete world: thirty days from
time zero gives end time 2592000 and the transaction id is returned. -/
theorem createSubscription_spec_witness :
    (createSubscription 1 3 0 c8World c8Params).2 =
      [Transition.subscribeTx
        (getProgramAddresses 1 2 3).statePDA
        (getProgramAddresses 1 2 3).subscriptionPDA
        (getProgramAddresses 1 2 3).subscribersListPDA
        3 2 9 7 "recipient" (0 + 30 * 86400)] ∧
    (createSubscription 1 3 0 c8World c8Params).1 = .ok "sig" :=
  ⟨(createSubscription_spec 1 3 0 c8World c8Params { owner := 9 } rfl).1,
    (createSubscription_spec 1 3 0 c8World c8Params { owner := 9 } rfl).2 "sig" rfl⟩

/-! ## getAllSubscriptionsForUser: claim C10 -/

/-- C10: every record returned by `getAllSubscriptionsForUser` has
`endTime` strictly after `now`, and with the same clock used for the
filter and the classification its status is never `expired`. -/
theorem getAllSubscriptionsForUser_active_only (u : PublicKey)
    (subscriptionAccounts : List (PDA × SubscriptionAccount)) (now : Int)
    (r : SubscriptionStatusRec)
    (hr : r ∈ getAllSubscriptionsForUser u subscriptionAccounts now) :
    now < r.subscription.endTime ∧ r.status ≠ Status.expired := by
  unfold getAllSubscriptionsForUser at hr
  simp only [List.mem_map, List.mem_filter] at hr
  obtain ⟨a, ⟨_, ha⟩, rfl⟩ := hr
  have hlt : now < a.2.endTime := by simpa using ha
  refine ⟨hlt, ?_⟩
  simp only [getSubscriptionStatus_eq]
  have hn : ¬ a.2.endTime ≤ now := not_le.mpr hlt
  split_ifs <;> simp_all

def c10PDA : PDA := { seeds := [Seed.tag "subscription"], programId := 0 }

def c10Acct : SubscriptionAccount := { endTime := 100, recipient := "recipient" }

def c10Rec : SubscriptionStatusRec :=
  { subscription := c10Acct, subscriptionPDA := c10PDA,
    status := getSubscriptionStatus 100 0 }

/-- Witness for C10 on a one-account listing at time zero. -/
theorem getAllSubscriptionsForUser_active_only_witness :
    (0 : Int) < c10Rec.subscription.endTime ∧ c10Rec.status ≠ Status.expired :=
  getAllSubscriptionsForUser_active_only 0 [(c10PDA, c10Acct)] 0 c10Rec
    (by simp [getAllSubscriptionsForUser, c10Acct, c10Rec])

end Fxn
